import Mathlib

/-!
Verification development for the FPL gameweek acquisition scripts
(`src/api/gameweek25-26.py` and `src/api/gameweek_data.py`).

The scripts manipulate parsed JSON with Python dictionary semantics, so the
embedding models JSON values as an inductive type and reproduces the Python
operations the code uses: `dict.get` with and without a default, truthiness,
the short-circuiting `or`, `is None` tests, string concatenation (which
raises `TypeError` on non-strings), attribute errors from calling `.get` on a
non-dict, and `KeyError` from subscripting a missing key.  Fallible code is
modelled in `Except PyError`.

Modelling notes, stated once here:
* Python dictionaries keep the last value bound to a key; lookups here search
  the association list from the tail so that later bindings shadow earlier
  ones, matching dict construction/update order.
* Iterating a non-list JSON value where the scripts expect a list (`for e in
  elements`) is folded into `TypeError`: every such iteration in the scripts
  immediately subscripts or calls `.get` on the iterated items, so every
  non-list shape fails with an exception in Python as well.
* `datetime.utcnow().isoformat()` is an opaque input string `now`.
-/

namespace FPL

/-- Parsed JSON values, as produced by `response.json()`. -/
inductive JValue where
  | null
  | bool (b : Bool)
  | int (n : Int)
  | str (s : String)
  | arr (xs : List JValue)
  | obj (kvs : List (String × JValue))

/-- The Python exceptions the modelled code can raise. -/
inductive PyError where
  | typeError
  | attributeError
  | keyError
  | netError
  deriving DecidableEq

/-- A canonical output row: an insertion-ordered Python dict. -/
abbrev Row := List (String × JValue)

/-- Dictionary lookup; later bindings shadow earlier ones (Python dicts keep
the most recent assignment for a key). -/
def lookupLastStr : List (String × JValue) → String → Option JValue
  | [], _ => none
  | (k, v) :: rest, key =>
    match lookupLastStr rest key with
    | some r => some r
    | none => if k = key then some v else none

/-- Python `key in d`. -/
def hasKeyStr (kvs : List (String × JValue)) (k : String) : Bool :=
  (lookupLastStr kvs k).isSome

/-- Python `d.get(k)`: `None` when the key is absent. -/
def pyGet (kvs : List (String × JValue)) (k : String) : JValue :=
  (lookupLastStr kvs k).getD .null

/-- Python `d.get(k, dflt)`: the default only when the key is absent. -/
def pyGetD (kvs : List (String × JValue)) (k : String) (dflt : JValue) : JValue :=
  (lookupLastStr kvs k).getD dflt

/-- Python truthiness of a JSON value. -/
def truthy : JValue → Bool
  | .null => false
  | .bool b => b
  | .int n => n != 0
  | .str s => s ≠ ""
  | .arr xs => !xs.isEmpty
  | .obj kvs => !kvs.isEmpty

/-- Python `a or b` (both operands already evaluated; all uses in the
modelled code have pure operands). -/
def pyOr (a b : JValue) : JValue :=
  if truthy a then a else b

/-- Python `v is None` for JSON values. -/
def isNullJ : JValue → Bool
  | .null => true
  | _ => false

/-- Python `==` restricted to the hashable JSON scalars (the only values the
scripts use as dict keys); mirrors `True == 1` and `False == 0`. -/
def jeqScalar : JValue → JValue → Bool
  | .null, .null => true
  | .bool a, .bool b => a == b
  | .int a, .int b => a == b
  | .str a, .str b => a == b
  | .bool a, .int b => (if a then (1 : Int) else 0) == b
  | .int a, .bool b => a == (if b then (1 : Int) else 0)
  | _, _ => false

/-- Lookup in a dict whose keys are JSON scalars, last binding wins. -/
def lookupLastJ : List (JValue × JValue) → JValue → Option JValue
  | [], _ => none
  | (k, v) :: rest, key =>
    match lookupLastJ rest key with
    | some r => some r
    | none => if jeqScalar k key then some v else none

/-- Exception propagation: run `x`; on success feed the value to `f`, on
exception propagate it (the implicit control flow of straight-line Python
statements). -/
def andThen (x : Except PyError α) (f : α → Except PyError β) : Except PyError β :=
  match x with
  | .error e => .error e
  | .ok a => f a

theorem andThen_ok (x : Except PyError α) (f : α → Except PyError β) (b : β) :
    andThen x f = .ok b ↔ ∃ a, x = .ok a ∧ f a = .ok b := by
  cases x <;> simp [andThen]

theorem andThen_ok_left (a : α) (f : α → Except PyError β) : andThen (.ok a) f = f a :=
  rfl

theorem andThen_error_left (e : PyError) (f : α → Except PyError β) :
    andThen (.error e) f = .error e :=
  rfl

/-- Calling `.get` on a value: only dicts have `.get`; anything else raises
`AttributeError` in Python. -/
def asObjA : JValue → Except PyError (List (String × JValue))
  | .obj kvs => .ok kvs
  | _ => .error .attributeError

/-- Iterating a value where the code expects a list of entries (see the
modelling notes at the top of the file). -/
def asListT : JValue → Except PyError (List JValue)
  | .arr xs => .ok xs
  | _ => .error .typeError

/-- Python `v.get(k, dflt)` for an arbitrary value `v`. -/
def pyGetDE (v : JValue) (k : String) (dflt : JValue) : Except PyError JValue :=
  match asObjA v with
  | .error e => .error e
  | .ok kvs => .ok (pyGetD kvs k dflt)

/-- Python `a + b` where the code expects string concatenation; any
non-string operand raises `TypeError` (this is how `None + " "` fails). -/
def pyAddStr : JValue → JValue → Except PyError JValue
  | .str a, .str b => .ok (.str (a ++ b))
  | _, _ => .error .typeError

/-- A lookup table built by `{x["id"]: x for x in items}`: scalar JSON key
paired with the record's fields. -/
abbrev IdMap := List (JValue × List (String × JValue))

/-- Whether a JSON value may be a Python dict key (lists and dicts are
unhashable). -/
def jHashable : JValue → Bool
  | .arr _ => false
  | .obj _ => false
  | _ => true

/-- `{x["id"]: x for x in items}`: subscripting a non-dict raises
`TypeError`, a missing `"id"` raises `KeyError`, an unhashable key raises
`TypeError`. -/
def buildIdMap (v : JValue) : Except PyError IdMap :=
  match asListT v with
  | .error e => .error e
  | .ok xs =>
    xs.foldlM (fun acc p =>
      match p with
      | .obj kvs =>
        match lookupLastStr kvs "id" with
        | none => .error .keyError
        | some key =>
          if jHashable key then .ok (acc ++ [(key, kvs)]) else .error .typeError
      | _ => .error .typeError) []

/-- Python `m.get(k, {})` on an id-keyed table; unhashable keys raise. -/
def idMapGetD (m : IdMap) (k : JValue) : Except PyError (List (String × JValue)) :=
  if jHashable k then
    match m.reverse.find? (fun kv => jeqScalar kv.1 k) with
    | some kv => .ok kv.2
    | none => .ok []
  else .error .typeError

/-! ### `src/api/gameweek25-26.py`: canonical fields and the reconciler -/

/-- `GW_FIELDS` from `gameweek25-26.py`: the canonical CSV column list. -/
def GW_FIELDS : List String :=
  ["gw", "player_id", "player_name", "team_id", "team", "position_id", "position",
   "now_cost", "total_points_season", "selected_by_percent",
   "minutes", "goals_scored", "assists", "clean_sheets", "goals_conceded",
   "own_goals", "penalties_saved", "penalties_missed", "yellow_cards", "red_cards",
   "saves", "bonus", "bps", "influence", "creativity", "threat", "ict_index",
   "total_points", "fetched_at"]

/-- The tuple of names skipped by the stat loop in `flatten_live_to_rows`
(the fields already set by the baseline row literal). -/
def base25 : List String :=
  ["gw", "player_id", "player_name", "team_id", "team", "position_id", "position",
   "now_cost", "total_points_season", "selected_by_percent", "fetched_at"]

/-- The stat fields filled by the loop in `flatten_live_to_rows`:
`for fld in GW_FIELDS: if fld in base: continue; row[fld] = stats.get(fld, 0)`. -/
def statFields25 : List String :=
  GW_FIELDS.filter (fun f => !(base25.contains f))

/-- `meta.get("web_name") or (meta.get("first_name", "") + " " +
meta.get("second_name", ""))` from `gameweek25-26.py` line 139; `or`
short-circuits, so the concatenation is evaluated only when `web_name` is
falsy. -/
def resolveName25 (meta : List (String × JValue)) : Except PyError JValue :=
  let wn := pyGet meta "web_name"
  if truthy wn then .ok wn
  else
    match pyAddStr (pyGetD meta "first_name" (.str "")) (.str " ") with
    | .error e => .error e
    | .ok a => pyAddStr a (pyGetD meta "second_name" (.str ""))

/-- `teams_meta.get(team_id, {}).get("name") if team_id else None`
(and the analogous position lookup). -/
def groupField (m : IdMap) (gid : JValue) (field : String) : Except PyError JValue :=
  if truthy gid then
    match idMapGetD m gid with
    | .error e => .error e
    | .ok t => .ok (pyGet t field)
  else .ok .null

/-- The row literal plus the stat loop of `flatten_live_to_rows`
(lines 136-155): baseline fields in dict-literal order, then the stat fields
in `GW_FIELDS` order with `stats.get(fld, 0)`. -/
def mkRow25 (gw pid name team_id team pos_id pos cost tps sel : JValue)
    (now : String) (skvs : List (String × JValue)) : Row :=
  [("gw", gw), ("player_id", pid), ("player_name", name), ("team_id", team_id),
   ("team", team), ("position_id", pos_id), ("position", pos), ("now_cost", cost),
   ("total_points_season", tps), ("selected_by_percent", sel), ("fetched_at", .str now)]
  ++ statFields25.map (fun fld => (fld, pyGetD skvs fld (.int 0)))

/-- `stats = e.get("stats") or {}` followed by `stats.get(fld, 0)`:
a non-dict truthy `stats` value (e.g. a list of pairs) has no `.get` and
raises `AttributeError`. -/
def stats25 (ekvs : List (String × JValue)) : Except PyError (List (String × JValue)) :=
  match pyOr (pyGet ekvs "stats") (.obj []) with
  | .obj kvs => .ok kvs
  | _ => .error .attributeError

/-- The body of the entry loop of `flatten_live_to_rows` after the
`player_id is None` test has passed (lines 128-156): the metadata joins
and the row literal. -/
def rowSteps25 (pm tm em : IdMap) (gwId : JValue) (now : String)
    (ekvs : List (String × JValue)) (pid : JValue) : Except PyError Row :=
  andThen (idMapGetD pm pid) fun meta =>
  andThen (groupField tm (pyGet meta "team") "name") fun team =>
  andThen (groupField em (pyGet meta "element_type") "singular_name_short") fun pos =>
  andThen (stats25 ekvs) fun skvs =>
  andThen (resolveName25 meta) fun name =>
  .ok (mkRow25 gwId pid name (pyGet meta "team") team
    (pyGet meta "element_type") pos (pyGet meta "now_cost")
    (pyGet meta "total_points") (pyGet meta "selected_by_percent")
    now skvs)

/-- One iteration of the entry loop of `flatten_live_to_rows` (lines
123-156): `none` means the entry was skipped by the `player_id is None`
test. -/
def flattenOne25 (pm tm em : IdMap) (gwId : JValue) (now : String) (e : JValue) :
    Except PyError (Option Row) :=
  andThen (asObjA e) fun ekvs =>
  let pid := pyOr (pyGet ekvs "id") (pyGet ekvs "element")
  if isNullJ pid then .ok none
  else
    andThen (rowSteps25 pm tm em gwId now ekvs pid) fun r => .ok (some r)

/-- The entry loop of `flatten_live_to_rows`, preserving payload order. -/
def flattenElems25 (pm tm em : IdMap) (gwId : JValue) (now : String) :
    List JValue → Except PyError (List Row)
  | [] => .ok []
  | e :: rest =>
    andThen (flattenOne25 pm tm em gwId now e) fun r? =>
    andThen (flattenElems25 pm tm em gwId now rest) fun rs =>
    .ok (match r? with | none => rs | some r => r :: rs)

/-- `flatten_live_to_rows(gw_json, bootstrap)` from `gameweek25-26.py`
(lines 114-157), with the capture timestamp supplied as `now`. -/
def flatten_live_to_rows (gwJson bootstrap : JValue) (now : String) :
    Except PyError (List Row) :=
  andThen (pyGetDE bootstrap "elements" (.arr [])) fun elemsV =>
  andThen (buildIdMap elemsV) fun pm =>
  andThen (pyGetDE bootstrap "teams" (.arr [])) fun teamsV =>
  andThen (buildIdMap teamsV) fun tm =>
  andThen (pyGetDE bootstrap "element_types" (.arr [])) fun etV =>
  andThen (buildIdMap etV) fun em =>
  andThen (pyGetDE gwJson "elements" (.arr [])) fun elements =>
  andThen (pyGetDE gwJson "event" .null) fun eventV =>
  andThen (pyGetDE gwJson "gameweek" .null) fun gwkV =>
  let gwId := pyOr eventV (pyOr gwkV .null)
  andThen (asListT elements) fun es =>
  flattenElems25 pm tm em gwId now es

/-! ### `src/api/gameweek_data.py`: stat fields and the reconciler -/

/-- `GW_STAT_FIELDS` from `gameweek_data.py`. -/
def GW_STAT_FIELDS : List String :=
  ["minutes", "goals_scored", "assists", "clean_sheets", "goals_conceded",
   "own_goals", "penalties_saved", "penalties_missed", "yellow_cards", "red_cards",
   "saves", "bonus", "bps", "influence", "creativity", "threat", "ict_index",
   "total_points"]

/-- The optional top-level element fields copied into the row when present
(`gameweek_data.py` lines 148-150). -/
def optTopFields : List String :=
  ["was_home", "opponent_team", "explain", "multiplier"]

/-- `meta.get("web_name") or meta.get("first_name") + " " +
meta.get("second_name", "")` from `gameweek_data.py` line 129: note the
missing default on `first_name`, so a `{}` meta raises `TypeError`
(`None + " "`) whenever `web_name` is falsy. -/
def resolveNameGwData (meta : List (String × JValue)) : Except PyError JValue :=
  let wn := pyGet meta "web_name"
  if truthy wn then .ok wn
  else
    match pyAddStr (pyGet meta "first_name") (.str " ") with
    | .error e => .error e
    | .ok a => pyAddStr a (pyGetD meta "second_name" (.str ""))

/-- The list-of-pairs normalization of `gw_live_to_rows` (lines 115-124):
`s = {}`, then for each dict item, `k = item.get("identifier") or
item.get("name")`, `v = item.get("value")`, and `if k: s[k] = v`.
Assigning with an unhashable key raises `TypeError`. -/
def normalizePairsGo (s : List (JValue × JValue)) :
    List JValue → Except PyError (List (JValue × JValue))
  | [] => .ok s
  | item :: rest =>
    match item with
    | .obj kvs =>
      let k := pyOr (pyGet kvs "identifier") (pyGet kvs "name")
      if truthy k then
        if jHashable k then normalizePairsGo (s ++ [(k, pyGet kvs "value")]) rest
        else .error .typeError
      else normalizePairsGo s rest
    | _ => normalizePairsGo s rest

/-- Entry point of the normalization loop, starting from `s = {}`. -/
def normalizePairs (items : List JValue) : Except PyError (List (JValue × JValue)) :=
  normalizePairsGo [] items

/-- `stats_dict = ele.get("stats") or ele.get("stats", {}) or
{k: ele.get(k) for k in GW_STAT_FIELDS}` followed by the list safeguard
(lines 113-124).  The result is a stat dict whose keys may be any hashable
JSON scalar; a truthy non-dict non-list value has no `.get` and raises
`AttributeError` at extraction time. -/
def statsGwData (ekvs : List (String × JValue)) : Except PyError (List (JValue × JValue)) :=
  match pyOr (pyGet ekvs "stats")
      (pyOr (pyGetD ekvs "stats" (.obj []))
        (.obj (GW_STAT_FIELDS.map (fun k => (k, pyGet ekvs k))))) with
  | .arr items => normalizePairs items
  | .obj kvs => .ok (kvs.map (fun kv => (JValue.str kv.1, kv.2)))
  | _ => .error .attributeError

/-- `stats_dict.get(fld, 0)` against a scalar-keyed stat dict. -/
def statLookup (s : List (JValue × JValue)) (fld : String) : JValue :=
  (lookupLastJ s (.str fld)).getD (.int 0)

/-- The row of `gw_live_to_rows` (lines 127-152): baseline dict literal,
then `GW_STAT_FIELDS` extraction, then the optional top-level fields that
are present in the element (`if top in ele`). -/
def mkRowGwData (pid name team_id team pos_id pos cost vs tps sel rowGw : JValue)
    (now : String) (s : List (JValue × JValue)) (ekvs : List (String × JValue)) : Row :=
  [("player_id", pid), ("player_name", name), ("team_id", team_id), ("team", team),
   ("position_id", pos_id), ("position", pos), ("now_cost", cost),
   ("value_season", vs), ("total_points_season", tps), ("selected_by_percent", sel),
   ("gw", rowGw), ("fetched_at", .str now)]
  ++ GW_STAT_FIELDS.map (fun fld => (fld, statLookup s fld))
  ++ (optTopFields.filter (fun t => hasKeyStr ekvs t)).map (fun t => (t, pyGet ekvs t))

/-- The body of the entry loop of `gw_live_to_rows` after the
`player_id is None` test has passed (lines 106-152). -/
def rowStepsGwData (pm tm em : IdMap) (eventV gwV : JValue) (now : String)
    (ekvs : List (String × JValue)) (pid : JValue) : Except PyError Row :=
  andThen (idMapGetD pm pid) fun meta =>
  andThen (groupField tm (pyGet meta "team") "name") fun team =>
  andThen (groupField em (pyGet meta "element_type") "singular_name_short") fun pos =>
  andThen (statsGwData ekvs) fun s =>
  andThen (resolveNameGwData meta) fun name =>
  .ok (mkRowGwData pid name (pyGet meta "team") team
    (pyGet meta "element_type") pos (pyGet meta "now_cost")
    (pyGet meta "value_season") (pyGet meta "total_points")
    (pyGet meta "selected_by_percent") (pyOr eventV gwV) now s ekvs)

/-- One iteration of the entry loop of `gw_live_to_rows` (lines 98-152);
`none` means the entry was skipped by the `player_id is None` test. -/
def flattenOneGwData (pm tm em : IdMap) (eventV gwV : JValue) (now : String)
    (e : JValue) : Except PyError (Option Row) :=
  andThen (asObjA e) fun ekvs =>
  let pid := pyOr (pyGet ekvs "id") (pyGet ekvs "element")
  if isNullJ pid then .ok none
  else
    andThen (rowStepsGwData pm tm em eventV gwV now ekvs pid) fun r => .ok (some r)

/-- The entry loop of `gw_live_to_rows`, preserving payload order. -/
def flattenElemsGwData (pm tm em : IdMap) (eventV gwV : JValue) (now : String) :
    List JValue → Except PyError (List Row)
  | [] => .ok []
  | e :: rest =>
    andThen (flattenOneGwData pm tm em eventV gwV now e) fun r? =>
    andThen (flattenElemsGwData pm tm em eventV gwV now rest) fun rs =>
    .ok (match r? with | none => rs | some r => r :: rs)

/-- `gw_live_to_rows(gw_json, bootstrap)` from `gameweek_data.py`
(lines 80-153), with the capture timestamp supplied as `now`.  The row's
`"gw"` field is `gw_json.get("event") or gw` where
`gw = gw_json.get("event") or gw_json.get("gameweek") or None`. -/
def gw_live_to_rows (gwJson bootstrap : JValue) (now : String) :
    Except PyError (List Row) :=
  andThen (pyGetDE bootstrap "elements" (.arr [])) fun elemsV =>
  andThen (buildIdMap elemsV) fun pm =>
  andThen (pyGetDE bootstrap "teams" (.arr [])) fun teamsV =>
  andThen (buildIdMap teamsV) fun tm =>
  andThen (pyGetDE bootstrap "element_types" (.arr [])) fun etV =>
  andThen (buildIdMap etV) fun em =>
  andThen (pyGetDE gwJson "event" .null) fun eventV =>
  andThen (pyGetDE gwJson "gameweek" .null) fun gwkV =>
  let gwV := pyOr eventV (pyOr gwkV .null)
  andThen (pyGetDE gwJson "elements" (.arr [])) fun elements =>
  andThen (asListT elements) fun es =>
  flattenElemsGwData pm tm em eventV gwV now es

/-! ### Artifact writers -/

/-- A written tabular artifact: header row plus data records. -/
structure CsvFile where
  headers : List String
  records : List (List JValue)

/-- `write_csv` from `gameweek25-26.py` (lines 159-172): empty row lists are
skipped with a warning and produce no file; otherwise headers are the fixed
`GW_FIELDS` and each record is `{h: r.get(h, 0) for h in headers}`. -/
def write_csv (rows : List Row) : Option CsvFile :=
  if rows.isEmpty then none
  else some { headers := GW_FIELDS,
              records := rows.map (fun r => GW_FIELDS.map (fun h => pyGetD r h (.int 0))) }

/-- Insert a key into an ascending duplicate-free list, keeping it sorted. -/
def insertSortedUnique (x : String) : List String → List String
  | [] => [x]
  | y :: ys =>
    if x = y then y :: ys
    else if x < y then x :: y :: ys
    else y :: insertSortedUnique x ys

/-- `sorted({k for r in rows for k in r.keys()})` from `gameweek_data.py`
line 160. -/
def sortedKeyUnion (rows : List Row) : List String :=
  (rows.foldl (fun acc r => acc ++ r.map Prod.fst) []).foldl
    (fun acc k => insertSortedUnique k acc) []

/-- `write_rows_to_csv` from `gameweek_data.py` (lines 155-165): empty row
lists are skipped; headers are the sorted union of row keys; missing keys
are written as the `DictWriter` default `""`. -/
def write_rows_to_csv (rows : List Row) : Option CsvFile :=
  if rows.isEmpty then none
  else
    let headers := sortedKeyUnion rows
    some { headers := headers,
           records := rows.map (fun r => headers.map (fun h => pyGetD r h (.str ""))) }

/-! ### Source selection (`gameweek25-26.py` `main`, lines 231-251) -/

/-- The configured target season label. -/
def TARGET_SEASON : String := "2025-26"

/-- Python `str.strip()` (whitespace from both ends). -/
def stripStr (s : String) : String :=
  String.mk (((s.data.dropWhile Char.isWhitespace).reverse.dropWhile
    Char.isWhitespace).reverse)

/-- `api_season.replace("/", "-").strip()`: the single-character pattern
makes `replace` a character map. -/
def normalizeLabel (s : String) : String :=
  stripStr (String.mk (s.data.map (fun c => if c = '/' then '-' else c)))

/-- Python `v == target` where `target` is a `str`: only equal strings
compare equal; values of any other type (including `None`) compare `False`. -/
def eqPyStr (v : JValue) (t : String) : Bool :=
  match v with
  | .str s => s = t
  | _ => false

inductive SourceDecision where
  | live
  | archive
  deriving DecidableEq

/-- Lines 238-243 of `gameweek25-26.py`: `api_season = None`; if the
bootstrap fetch succeeded and the payload is truthy, read
`bootstrap.get("season_name") or bootstrap.get("season")` and normalize it
when it is a string.  `none` models a failed bootstrap fetch
(`bootstrap = None`). -/
def apiSeasonOf (bootstrap : Option JValue) : Except PyError JValue :=
  match bootstrap with
  | none => .ok .null
  | some b =>
    if truthy b then
      match asObjA b with
      | .error e => .error e
      | .ok kvs =>
        let v := pyOr (pyGet kvs "season_name") (pyGet kvs "season")
        .ok (match v with
          | .str s => .str (normalizeLabel s)
          | w => w)
    else .ok .null

/-- The live/archive branch: `if api_season == TARGET_SEASON` (line 245). -/
def select_source (bootstrap : Option JValue) : Except PyError SourceDecision :=
  match apiSeasonOf bootstrap with
  | .error e => .error e
  | .ok v => .ok (if eqPyStr v TARGET_SEASON then .live else .archive)

/-! ### Resilient fetcher (`http_get`, identical retry structure in both
scripts) -/

/-- The retry loop of `http_get`: `behavior n` is the outcome of the `n`-th
attempt (1-based).  Returns the final result together with the number of
attempts actually performed; after the loop the last exception is re-raised
(`none` can only appear with a zero retry budget, where Python would raise
`TypeError` on `raise None`). -/
def httpGetAux (behavior : Nat → Except PyError JValue) (attempt remaining : Nat)
    (lastExc : Option PyError) : Except (Option PyError) JValue × Nat :=
  match remaining with
  | 0 => (.error lastExc, 0)
  | r + 1 =>
    match behavior attempt with
    | .ok p => (.ok p, 1)
    | .error e =>
      let (res, n) := httpGetAux behavior (attempt + 1) r (some e)
      (res, n + 1)

/-- `http_get(url, max_retries)`: attempts numbered `1..max_retries`. -/
def http_get (behavior : Nat → Except PyError JValue) (maxRetries : Nat) :
    Except (Option PyError) JValue × Nat :=
  httpGetAux behavior 1 maxRetries none

/-! ### The live-path batch loop (`gameweek25-26.py` lines 253-264) -/

/-- Outcome of one period iteration: either the body completed (possibly
skipping the CSV when there were no rows) or some step raised and the
`except` clause logged it. -/
inductive PeriodResult where
  | written (artifact : Option CsvFile) (nrows : Nat)
  | failed (e : PyError)

def PeriodResult.isFailed : PeriodResult → Bool
  | .failed _ => true
  | _ => false

/-- The body of one loop iteration: fetch the period's payload, reconcile,
write the CSV. -/
def livePeriodStep (fetchE : Nat → Except PyError JValue) (bootstrap : JValue)
    (now : String) (gw : Nat) : PeriodResult :=
  match fetchE gw with
  | .error e => .failed e
  | .ok gj =>
    match flatten_live_to_rows gj bootstrap now with
    | .error e => .failed e
    | .ok rows => .written (write_csv rows) rows.length

/-- The per-period loop: every iteration's body is wrapped in
`try/except`, so a failure is recorded and the loop continues. -/
def runLive (fetchE : Nat → Except PyError JValue) (bootstrap : JValue)
    (now : String) : List Nat → List (Nat × PeriodResult)
  | [] => []
  | gw :: rest =>
    (gw, livePeriodStep fetchE bootstrap now gw) :: runLive fetchE bootstrap now rest

/-- The live branch of `main` as an exception-producing computation: each
period's body runs under `try/except` (failures only logged), then the
`[DONE]` message prints and `main` returns normally. -/
def mainLiveLoop (fetchE : Nat → Except PyError JValue) (bootstrap : JValue)
    (now : String) : List Nat → Except PyError (List (Nat × PeriodResult))
  | [] => .ok []
  | gw :: rest =>
    let r := livePeriodStep fetchE bootstrap now gw
    match mainLiveLoop fetchE bootstrap now rest with
    | .error e => .error e
    | .ok rs => .ok ((gw, r) :: rs)

/-- Process exit status of a Python script modelled in `Except`: normal
return exits `0`, an uncaught exception exits non-zero (`1`). -/
def exitCode : Except PyError α → Nat
  | .ok _ => 0
  | .error _ => 1

/-! ### Generic lemmas about the dictionary model -/

theorem lookupLastStr_append (xs ys : List (String × JValue)) (k : String) :
    lookupLastStr (xs ++ ys) k =
      match lookupLastStr ys k with
      | some v => some v
      | none => lookupLastStr xs k := by
  induction xs with
  | nil =>
    simp only [List.nil_append]
    cases h : lookupLastStr ys k <;> simp [h, lookupLastStr]
  | cons x xs ih =>
    obtain ⟨k1, v1⟩ := x
    simp only [List.cons_append, lookupLastStr, List.append_eq]
    rw [ih]
    cases h : lookupLastStr ys k <;> simp

theorem lookupLastStr_snoc_self (xs : List (String × JValue)) (k : String) (v : JValue) :
    lookupLastStr (xs ++ [(k, v)]) k = some v := by
  rw [lookupLastStr_append]; simp [lookupLastStr]

theorem lookupLastStr_snoc_ne (xs : List (String × JValue)) (k : String) (v : JValue)
    (k2 : String) (h : k2 ≠ k) :
    lookupLastStr (xs ++ [(k, v)]) k2 = lookupLastStr xs k2 := by
  rw [lookupLastStr_append]; simp [lookupLastStr, Ne.symm h]

theorem lookupLastStr_map_pair (fields : List String) (g : String → JValue) (k : String) :
    lookupLastStr (fields.map (fun f => (f, g f))) k =
      if k ∈ fields then some (g k) else none := by
  induction fields with
  | nil => simp [lookupLastStr]
  | cons f fs ih =>
    simp only [List.map_cons, lookupLastStr, ih]
    by_cases hmem : k ∈ fs
    · simp [hmem]
    · by_cases hk : f = k
      · subst hk; simp [hmem]
      · simp [hmem, hk]
        rw [if_neg (fun h : k = f => hk h.symm)]

/-! ### Claim C5: source selection -/

/-- C5: source selection normalizes separators in the API-reported season
label (slash to hyphen) and compares case-sensitively against the target
season label; equality selects Live and anything else — a different label,
an absent label, or a failed reference-metadata fetch (`none`) — selects
Archive.  In particular "2025/26" vs target "2025-26" selects Live and
"2024-25" selects Archive. -/
theorem c5_source_selection :
    select_source none = .ok .archive ∧
    select_source (some (.obj [("season_name", .str "2025/26")])) = .ok .live ∧
    select_source (some (.obj [("season_name", .str "2024-25")])) = .ok .archive ∧
    (∀ s : String, select_source (some (.obj [("season_name", .str s)])) =
      .ok (if normalizeLabel s = TARGET_SEASON then .live else .archive)) ∧
    select_source (some (.obj [("events", .arr [.obj [("id", .int 1)]])])) = .ok .archive := by
  refine ⟨rfl, rfl, rfl, ?_, rfl⟩
  intro s
  by_cases hs : s = ""
  · subst hs; rfl
  · simp only [select_source, apiSeasonOf, asObjA, truthy, pyOr, pyGet, lookupLastStr,
      eqPyStr, TARGET_SEASON]
    simp [hs, truthy]

/-- C5 witness: the general conjunct evaluated at the concrete label
"2025/26". -/
theorem c5_source_selection_witness :
    select_source (some (.obj [("season_name", .str "2025/26")])) =
      .ok (if normalizeLabel "2025/26" = TARGET_SEASON then .live else .archive) :=
  c5_source_selection.2.2.2.1 "2025/26"

/-! ### Claim C6: retry bound of the resilient fetcher -/

theorem httpGetAux_succeeds (behavior : Nat → Except PyError JValue) (p : JValue) :
    ∀ (k attempt remaining : Nat) (lastExc : Option PyError),
      (∀ i, i < k → ∃ e, behavior (attempt + i) = .error e) →
      behavior (attempt + k) = .ok p → k < remaining →
      httpGetAux behavior attempt remaining lastExc = (.ok p, k + 1) := by
  intro k
  induction k with
  | zero =>
    intro attempt remaining lastExc _ hok hlt
    obtain ⟨r, rfl⟩ := Nat.exists_eq_succ_of_ne_zero (Nat.pos_iff_ne_zero.mp hlt)
    simp only [Nat.add_zero] at hok
    simp [httpGetAux, hok]
  | succ k ih =>
    intro attempt remaining lastExc hfail hok hlt
    obtain ⟨r, rfl⟩ := Nat.exists_eq_succ_of_ne_zero
      (Nat.pos_iff_ne_zero.mp (Nat.lt_of_le_of_lt (Nat.zero_le _) hlt))
    obtain ⟨e, he⟩ := hfail 0 (Nat.succ_pos k)
    have he' : behavior attempt = .error e := by simpa using he
    have hrec := ih (attempt + 1) r (some e)
      (fun i hi => by
        obtain ⟨e2, he2⟩ := hfail (i + 1) (Nat.succ_lt_succ hi)
        exact ⟨e2, by rw [← he2]; ring_nf⟩)
      (by rw [← hok]; ring_nf)
      (Nat.lt_of_succ_lt_succ hlt)
    simp [httpGetAux, he', hrec]

theorem httpGetAux_exhausts (behavior : Nat → Except PyError JValue) :
    ∀ (remaining attempt : Nat) (lastExc : Option PyError) (e : PyError),
      (∀ i, i < remaining → ∃ e2, behavior (attempt + i) = .error e2) →
      remaining ≠ 0 → behavior (attempt + remaining - 1) = .error e →
      httpGetAux behavior attempt remaining lastExc = (.error (some e), remaining) := by
  intro remaining
  induction remaining with
  | zero => intro _ _ _ _ h0; exact absurd rfl h0
  | succ r ih =>
    intro attempt lastExc e hfail _ hlast
    obtain ⟨e0, he0⟩ := hfail 0 (Nat.succ_pos r)
    have he0' : behavior attempt = .error e0 := by simpa using he0
    by_cases hr : r = 0
    · subst hr
      have : behavior attempt = .error e := by simpa using hlast
      rw [this] at he0'
      injection he0' with h
      subst h
      simp [httpGetAux, this]
    · have hrec := ih (attempt + 1) (some e0) e
        (fun i hi => by
          obtain ⟨e2, he2⟩ := hfail (i + 1) (Nat.succ_lt_succ hi)
          exact ⟨e2, by rw [← he2]; ring_nf⟩)
        hr
        (by rw [← hlast]; congr 1; omega)
      simp [httpGetAux, he0', hrec]

/-- C6: with a retry budget of `maxRetries` attempts, a resource failing on
exactly the first `n - 1` attempts and succeeding on attempt `n ≤ maxRetries`
makes `http_get` return the successful payload after exactly `n` attempts;
a resource failing on all `maxRetries` attempts makes `http_get` re-raise
the last error after exactly `maxRetries` attempts, with no further
attempts. -/
theorem c6_retry_bound (behavior : Nat → Except PyError JValue) (maxRetries : Nat) :
    (∀ (n : Nat) (p : JValue), 1 ≤ n → n ≤ maxRetries →
      (∀ i, 1 ≤ i → i < n → ∃ e, behavior i = .error e) →
      behavior n = .ok p →
      http_get behavior maxRetries = (.ok p, n)) ∧
    (∀ e : PyError, 1 ≤ maxRetries →
      (∀ i, 1 ≤ i → i ≤ maxRetries → ∃ e2, behavior i = .error e2) →
      behavior maxRetries = .error e →
      http_get behavior maxRetries = (.error (some e), maxRetries)) := by
  constructor
  · intro n p h1 hmax hfail hok
    have := httpGetAux_succeeds behavior p (n - 1) 1 maxRetries none
      (fun i hi => by
        obtain ⟨e, he⟩ := hfail (1 + i) (by omega) (by omega)
        exact ⟨e, he⟩)
      (by rw [← hok]; congr 1; omega)
      (by omega)
    rw [http_get, this]
    congr 1
    omega
  · intro e hmax hfail hlast
    have := httpGetAux_exhausts behavior maxRetries 1 none e
      (fun i hi => by
        obtain ⟨e2, he2⟩ := hfail (1 + i) (by omega) (by omega)
        exact ⟨e2, he2⟩)
      (by omega)
      (by rw [← hlast]; congr 1; omega)
    rw [http_get, this]

/-- A behavior failing on attempts 1 and 2 and succeeding on attempt 3. -/
def behaviorTwoFail : Nat → Except PyError JValue :=
  fun i => if i ≤ 2 then .error .netError else .ok (.int 42)

/-- A behavior failing on every attempt. -/
def behaviorAllFail : Nat → Except PyError JValue :=
  fun _ => .error .netError

/-- C6 witness: both halves of the retry theorem at concrete behaviors with
a budget of 3 attempts. -/
theorem c6_retry_bound_witness :
    http_get behaviorTwoFail 3 = (.ok (.int 42), 3) ∧
    http_get behaviorAllFail 3 = (.error (some .netError), 3) := by
  constructor
  · exact (c6_retry_bound behaviorTwoFail 3).1 3 (.int 42) (by decide) (by decide)
      (fun i h1 h2 => ⟨.netError, by
        have : i ≤ 2 := by omega
        simp [behaviorTwoFail, this]⟩)
      rfl
  · exact (c6_retry_bound behaviorAllFail 3).2 .netError (by decide)
      (fun i _ _ => ⟨.netError, rfl⟩) rfl

/-! ### Claim C7: per-period failure isolation in the live batch loop -/

/-- C7: every period in the live batch yields exactly one loop iteration in
payload order, and splitting around any single period — in particular a
failing one — shows the loop still processes every subsequent period: a
single period's failure never aborts the batch. -/
theorem c7_per_period_isolation :
    (∀ (fetchE : Nat → Except PyError JValue) (bootstrap : JValue) (now : String)
        (gws : List Nat),
      (runLive fetchE bootstrap now gws).map Prod.fst = gws) ∧
    (∀ (fetchE : Nat → Except PyError JValue) (bootstrap : JValue) (now : String)
        (pre : List Nat) (bad : Nat) (post : List Nat),
      runLive fetchE bootstrap now (pre ++ bad :: post) =
        runLive fetchE bootstrap now pre ++
          (bad, livePeriodStep fetchE bootstrap now bad) ::
            runLive fetchE bootstrap now post) := by
  constructor
  · intro fetchE bootstrap now gws
    induction gws with
    | nil => rfl
    | cons gw rest ih => simp [runLive, ih]
  · intro fetchE bootstrap now pre bad post
    induction pre with
    | nil => rfl
    | cons gw rest ih => simp [runLive, ih]

/-- A fetch behavior whose period 1 fails and whose other periods return an
empty live payload. -/
def cFetchFail1 : Nat → Except PyError JValue :=
  fun gw => if gw = 1 then .error .netError else .ok (.obj [("elements", .arr [])])

/-- C7 witness: the batch shape theorem applied to a concrete run in which
period 1 fails but periods 2 and 3 are still processed. -/
theorem c7_per_period_isolation_witness :
    (runLive cFetchFail1 (.obj []) "T" [1, 2, 3]).map Prod.fst = [1, 2, 3] :=
  c7_per_period_isolation.1 cFetchFail1 (.obj []) "T" [1, 2, 3]

/-! ### Claim C8: exit status of the run -/

/-- C8 counterexample: in a live run over periods `[1, 2]` where period 1's
fetch fails outright, the loop records the failure but `main` still returns
normally, i.e. the process exit status is `0` — contradicting the claim
that at least one failed period forces a non-zero exit status. -/
theorem c8_counterexample :
    (runLive cFetchFail1 (.obj []) "T" [1, 2]).map (fun pr => pr.2.isFailed) =
      [true, false] ∧
    exitCode (mainLiveLoop cFetchFail1 (.obj []) "T" [1, 2]) = 0 :=
  ⟨rfl, rfl⟩

/-- C8 amended: on the live path the run always exits with status zero,
whether or not periods failed — per-period failures are caught and only
logged, and `main` returns normally after the loop. -/
theorem c8_live_exit_always_zero
    (fetchE : Nat → Except PyError JValue) (bootstrap : JValue) (now : String)
    (gws : List Nat) :
    exitCode (mainLiveLoop fetchE bootstrap now gws) = 0 := by
  induction gws with
  | nil => rfl
  | cons gw rest ih =>
    simp only [mainLiveLoop]
    cases h : mainLiveLoop fetchE bootstrap now rest with
    | error e => rw [h] at ih; exact absurd ih (by simp [exitCode])
    | ok rs => simp [exitCode]

/-- C8 witness: the amended theorem at a concrete run with a failed
period. -/
theorem c8_live_exit_always_zero_witness :
    exitCode (mainLiveLoop cFetchFail1 (.obj []) "T" [1, 2]) = 0 :=
  c8_live_exit_always_zero cFetchFail1 (.obj []) "T" [1, 2]

/-! ### Claim C9: one artifact per period -/

/-- C9 counterexample: a period whose reconciliation yields zero rows
produces no artifact at all — both writers return without creating a file —
contradicting "exactly one tabular artifact ... including when
reconciliation yields zero rows". -/
theorem c9_counterexample :
    write_csv [] = none ∧ write_rows_to_csv [] = none :=
  ⟨rfl, rfl⟩

/-- C9 amended: for every period with at least one reconciled row,
`gameweek25-26.py` persists exactly one artifact whose column order is the
fixed `GW_FIELDS` list, while `gameweek_data.py` persists one artifact whose
column order is the sorted union of the rows' keys (not the fixed canonical
list); a period with zero rows produces no artifact in either script. -/
theorem c9_artifact_per_period :
    (∀ rows : List Row, rows ≠ [] →
      (write_csv rows).map CsvFile.headers = some GW_FIELDS) ∧
    write_csv [] = none ∧
    (∀ rows : List Row, rows ≠ [] →
      (write_rows_to_csv rows).map CsvFile.headers = some (sortedKeyUnion rows)) ∧
    write_rows_to_csv [] = none := by
  refine ⟨?_, rfl, ?_, rfl⟩
  · intro rows h
    cases rows with
    | nil => exact absurd rfl h
    | cons r rs => rfl
  · intro rows h
    cases rows with
    | nil => exact absurd rfl h
    | cons r rs => rfl

/-- C9 witness: the amended theorem at a concrete one-row input. -/
theorem c9_artifact_per_period_witness :
    (write_csv [[("gw", .int 1)]]).map CsvFile.headers = some GW_FIELDS :=
  c9_artifact_per_period.1 [[("gw", .int 1)]] (by simp)

/-! ### Claim C1: missing entity metadata -/

/-- Minimal reference metadata with empty entity/group/category tables. -/
def cBootMin : JValue :=
  .obj [("elements", .arr []), ("teams", .arr []), ("element_types", .arr [])]

/-- A live payload with one entry whose entity id 5 is absent from the
metadata's entity table. -/
def cPayloadC1 : JValue :=
  .obj [("elements", .arr [.obj [("id", .int 5), ("stats", .obj [])]])]

/-- C1: the claim (reconciliation never raises when the entity id is absent
from the entity table, emitting a row of null/empty sentinels) holds for
`flatten_live_to_rows` — the emitted row has name `" "`, null group,
category, cost and ownership fields, and zero statistics — but
`gw_live_to_rows` raises `TypeError` on the very same input: line 129 reads
`meta.get("first_name")` with no default, so the missing entity makes it
evaluate `None + " "`.  The spec (and the sibling script, which defaults
`first_name` to `""`) shows the intent; the missing default is the slip. -/
theorem c1_missing_entity_metadata :
    gw_live_to_rows cPayloadC1 cBootMin "T" = .error .typeError ∧
    flatten_live_to_rows cPayloadC1 cBootMin "T" =
      .ok [mkRow25 .null (.int 5) (.str " ") .null .null .null .null .null .null .null
        "T" []] :=
  ⟨rfl, rfl⟩

/-! ### Claim C2: drop rule and row accounting -/

/-- The identifier resolution of both reconcilers lifted to an arbitrary
entry value: `e.get("id") or e.get("element")`.  Non-dict entries (on which
the reconcilers raise before resolving anything) are mapped to null. -/
def resolveIdE : JValue → JValue
  | .obj kvs => pyOr (pyGet kvs "id") (pyGet kvs "element")
  | _ => .null

theorem mkRow25_player_id (g pid name tid team posid pos cost tps sel : JValue)
    (now : String) (skvs : List (String × JValue)) :
    pyGet (mkRow25 g pid name tid team posid pos cost tps sel now skvs) "player_id" = pid :=
  rfl

theorem mkRow25_keys (g pid name tid team posid pos cost tps sel : JValue)
    (now : String) (skvs : List (String × JValue)) :
    (mkRow25 g pid name tid team posid pos cost tps sel now skvs).map Prod.fst =
      base25 ++ statFields25 :=
  rfl

theorem rowSteps25_ok (pm tm em : IdMap) (g : JValue) (t : String)
    (ekvs : List (String × JValue)) (pid : JValue) (r : Row)
    (h : rowSteps25 pm tm em g t ekvs pid = .ok r) :
    pyGet r "player_id" = pid ∧ r.map Prod.fst = base25 ++ statFields25 := by
  rw [rowSteps25] at h
  simp only [andThen_ok, Except.ok.injEq] at h
  obtain ⟨meta, h1, team, h2, pos, h3, skvs, h4, name, h5, h6⟩ := h
  subst h6
  exact ⟨mkRow25_player_id .., mkRow25_keys ..⟩

theorem flattenOne25_ok (pm tm em : IdMap) (g : JValue) (t : String) (e : JValue)
    (r? : Option Row) (h : flattenOne25 pm tm em g t e = .ok r?) :
    (r? = none ↔ isNullJ (resolveIdE e) = true) ∧
    (∀ r, r? = some r → pyGet r "player_id" = resolveIdE e ∧
      r.map Prod.fst = base25 ++ statFields25) := by
  cases e with
  | null => simp [flattenOne25, asObjA, andThen_error_left] at h
  | bool b => simp [flattenOne25, asObjA, andThen_error_left] at h
  | int n => simp [flattenOne25, asObjA, andThen_error_left] at h
  | str s => simp [flattenOne25, asObjA, andThen_error_left] at h
  | arr xs => simp [flattenOne25, asObjA, andThen_error_left] at h
  | obj kvs =>
  simp only [flattenOne25, asObjA, andThen_ok_left] at h
  by_cases hn : isNullJ (pyOr (pyGet kvs "id") (pyGet kvs "element")) = true
  · rw [if_pos hn] at h
    have : (none : Option Row) = r? := by injection h
    subst this
    simp [resolveIdE, hn]
  · rw [if_neg hn] at h
    rw [andThen_ok] at h
    obtain ⟨r, hrs, hr⟩ := h
    have : (some r : Option Row) = r? := by injection hr
    subst this
    refine ⟨by simp [resolveIdE, hn], ?_⟩
    intro r2 hr2
    have : r = r2 := by injection hr2
    subst this
    have := rowSteps25_ok pm tm em g t kvs _ r hrs
    simpa [resolveIdE] using this

theorem flattenElems25_spec (pm tm em : IdMap) (g : JValue) (t : String) :
    ∀ (es : List JValue) (rows : List Row),
      flattenElems25 pm tm em g t es = .ok rows →
      rows.map (fun r => pyGet r "player_id") =
        (es.filter (fun e => !isNullJ (resolveIdE e))).map resolveIdE ∧
      rows.length = (es.filter (fun e => !isNullJ (resolveIdE e))).length := by
  intro es
  induction es with
  | nil =>
    intro rows h
    rw [flattenElems25] at h
    have : ([] : List Row) = rows := by injection h
    subst this
    simp
  | cons e rest ih =>
    intro rows h
    rw [flattenElems25] at h
    simp only [andThen_ok] at h
    obtain ⟨r?, h1, rs, h2, h3⟩ := h
    obtain ⟨hnone, hsome⟩ := flattenOne25_ok pm tm em g t e r? h1
    obtain ⟨ihmap, ihlen⟩ := ih rs h2
    cases r? with
    | none =>
      have : rs = rows := by injection h3
      subst this
      have hskip : isNullJ (resolveIdE e) = true := hnone.mp rfl
      simp [List.filter_cons, hskip, ihmap, ihlen]
    | some r =>
      have : (r :: rs) = rows := by injection h3
      subst this
      have hkeep : isNullJ (resolveIdE e) = false := by
        by_contra hc
        have := hnone.mpr (by simpa using hc)
        simp at this
      obtain ⟨hpid, _⟩ := hsome r rfl
      simp [List.filter_cons, hkeep, hpid, ihmap, ihlen]

/-- C2 counterexample: an entry that *does* expose the direct identifier
field — `{"id": 0}` — is nevertheless dropped, because resolution uses
truthiness (`e.get("id") or e.get("element")`) followed by an `is None`
test, so the claim's "drops exactly those entries that expose neither
identifier field" predicts one emitted row where the code emits zero. -/
theorem c2_counterexample :
    hasKeyStr [("id", JValue.int 0)] "id" = true ∧
    flatten_live_to_rows (.obj [("elements", .arr [.obj [("id", .int 0)]])])
      (.obj []) "T" = .ok [] :=
  ⟨rfl, rfl⟩

/-- C2 amended: reconciliation drops exactly those entries whose resolved
identifier `e.get("id") or e.get("element")` is `None` — i.e. the direct
field is absent, null or falsy AND the secondary field is absent or null —
and emits exactly one CanonicalRow per retained entry in payload order,
carrying that entry's resolved identifier; the emitted row count equals the
entry count minus the dropped count. -/
theorem c2_drop_rule (elements : List JValue) (B : JValue) (t : String)
    (rows : List Row)
    (h : flatten_live_to_rows (.obj [("elements", .arr elements)]) B t = .ok rows) :
    rows.map (fun r => pyGet r "player_id") =
      (elements.filter (fun e => !isNullJ (resolveIdE e))).map resolveIdE ∧
    rows.length =
      elements.length - (elements.filter (fun e => isNullJ (resolveIdE e))).length := by
  rw [flatten_live_to_rows] at h
  simp only [andThen_ok] at h
  obtain ⟨ev, hb1, pm, hb2, tv, hb3, tm, hb4, etv, hb5, em, hb6,
    elemsV, hp1, eventV, hp2, gwkV, hp3, es, hp4, h⟩ := h
  simp [pyGetDE, asObjA, pyGetD, lookupLastStr] at hp1 hp2 hp3
  subst hp1
  subst hp2
  subst hp3
  simp [asListT] at hp4
  subst hp4
  obtain ⟨hmap, hlen⟩ := flattenElems25_spec pm tm em _ t elements rows h
  refine ⟨hmap, ?_⟩
  rw [hlen]
  have hsplit := List.length_eq_length_filter_add
    (fun e => isNullJ (resolveIdE e)) (l := elements)
  omega

/-- A three-entry payload for exercising the drop rule: one entry keyed by
`"id"`, one droppable entry with neither identifier field, one keyed by
`"element"`. -/
def c2wElems : List JValue :=
  [.obj [("id", .int 7), ("stats", .obj [])],
   .obj [("kickoff", .str "x")],
   .obj [("element", .int 9), ("stats", .obj [])]]

/-- Reference metadata holding entities 7 and 9. -/
def c2wBoot : JValue :=
  .obj [("elements", .arr [.obj [("id", .int 7), ("web_name", .str "A")],
                           .obj [("id", .int 9), ("web_name", .str "B")]])]

/-- The two rows the payload reconciles to. -/
def c2wRows : List Row :=
  [mkRow25 .null (.int 7) (.str "A") .null .null .null .null .null .null .null "T" [],
   mkRow25 .null (.int 9) (.str "B") .null .null .null .null .null .null .null "T" []]

/-- C2 witness: the amended claim applied to the concrete three-entry
payload, with the reconciliation hypothesis discharged by evaluation. -/
theorem c2_drop_rule_witness :
    flatten_live_to_rows (.obj [("elements", .arr c2wElems)]) c2wBoot "T" =
      .ok c2wRows ∧
    (c2wRows.map (fun r => pyGet r "player_id") =
        (c2wElems.filter (fun e => !isNullJ (resolveIdE e))).map resolveIdE ∧
      c2wRows.length =
        c2wElems.length - (c2wElems.filter (fun e => isNullJ (resolveIdE e))).length) :=
  ⟨rfl, c2_drop_rule c2wElems c2wBoot "T" c2wRows rfl⟩

/-! ### Claim C4: fixed canonical field set -/

/-- Reference metadata with two named entities (ids 1 and 2). -/
def cBootAB : JValue :=
  .obj [("elements", .arr [.obj [("id", .int 1), ("web_name", .str "A")],
                           .obj [("id", .int 2), ("web_name", .str "B")]])]

/-- A payload whose first entry carries the optional top-level field
`was_home` and whose second entry does not. -/
def cPayloadC4 : JValue :=
  .obj [("elements", .arr
    [.obj [("id", .int 1), ("stats", .obj []), ("was_home", .bool true)],
     .obj [("id", .int 2), ("stats", .obj [])]])]

/-- The fixed base+stat key list of a `gw_live_to_rows` row. -/
def gwDataKeysBase : List String :=
  ["player_id", "player_name", "team_id", "team", "position_id", "position",
   "now_cost", "value_season", "total_points_season", "selected_by_percent",
   "gw", "fetched_at"] ++ GW_STAT_FIELDS

/-- C4 counterexample: `gw_live_to_rows` copies the optional top-level
fields (`was_home`, `opponent_team`, `explain`, `multiplier`) into the row
when present, so two rows of the same reconciliation run carry different
field sets — contradicting "no emitted row carries a varying field set". -/
theorem c4_counterexample :
    (gw_live_to_rows cPayloadC4 cBootAB "T").map
        (fun rows => rows.map (fun r => r.map Prod.fst)) =
      .ok [gwDataKeysBase ++ ["was_home"], gwDataKeysBase] ∧
    gwDataKeysBase ++ ["was_home"] ≠ gwDataKeysBase :=
  ⟨rfl, by decide⟩

theorem flattenElems25_keys (pm tm em : IdMap) (g : JValue) (t : String) :
    ∀ (es : List JValue) (rows : List Row),
      flattenElems25 pm tm em g t es = .ok rows →
      ∀ r ∈ rows, r.map Prod.fst = base25 ++ statFields25 := by
  intro es
  induction es with
  | nil =>
    intro rows h
    rw [flattenElems25] at h
    have : ([] : List Row) = rows := by injection h
    subst this
    simp
  | cons e rest ih =>
    intro rows h
    rw [flattenElems25] at h
    simp only [andThen_ok] at h
    obtain ⟨r?, h1, rs, h2, h3⟩ := h
    obtain ⟨_, hsome⟩ := flattenOne25_ok pm tm em g t e r? h1
    cases r? with
    | none =>
      have : rs = rows := by injection h3
      subst this
      exact ih _ h2
    | some r =>
      have : (r :: rs) = rows := by injection h3
      subst this
      intro r2 hr2
      rcases List.mem_cons.mp hr2 with hr2 | hr2
      · subst hr2; exact (hsome r2 rfl).2
      · exact ih rs h2 r2 hr2

/-- C4 amended: every row emitted by `flatten_live_to_rows` has the same
fixed key list — the baseline fields followed by the stat fields, a
permutation of the canonical `GW_FIELDS` list — and a stat field absent
from the entry's stats mapping is set to `0` in the row rather than
omitted.  (`gw_live_to_rows`, by contrast, appends optional top-level
fields when present, so its field set varies across rows; see the
counterexample.) -/
theorem c4_fixed_field_set :
    (∀ (gwJson B : JValue) (t : String) (rows : List Row),
      flatten_live_to_rows gwJson B t = .ok rows →
      ∀ r ∈ rows, r.map Prod.fst = base25 ++ statFields25) ∧
    (base25 ++ statFields25).Perm GW_FIELDS ∧
    (∀ (g pid name tid team posid pos cost tps sel : JValue) (t : String)
        (skvs : List (String × JValue)) (fld : String),
      fld ∈ statFields25 → lookupLastStr skvs fld = none →
      pyGet (mkRow25 g pid name tid team posid pos cost tps sel t skvs) fld =
        .int 0) := by
  refine ⟨?_, by decide, ?_⟩
  · intro gwJson B t rows h
    rw [flatten_live_to_rows] at h
    simp only [andThen_ok] at h
    obtain ⟨ev, _, pm, _, tv, _, tm, _, etv, _, em, _,
      elemsV, _, eventV, _, gwkV, _, es, _, h⟩ := h
    exact flattenElems25_keys pm tm em _ t es rows h
  · intro g pid name tid team posid pos cost tps sel t skvs fld hmem habs
    rw [mkRow25, pyGet, lookupLastStr_append, lookupLastStr_map_pair]
    simp [hmem, pyGetD, habs]

/-- C4 witness: the amended theorem's key-list clause at a concrete
reconciliation and its zero-default clause at the concrete absent field
`"minutes"`. -/
theorem c4_fixed_field_set_witness :
    flatten_live_to_rows (.obj [("elements", .arr
        [.obj [("element", .int 3), ("stats", .obj [])]])]) (.obj []) "T" =
      .ok [mkRow25 .null (.int 3) (.str " ") .null .null .null .null .null .null .null
        "T" []] ∧
    (mkRow25 .null (.int 3) (.str " ") .null .null .null .null .null .null .null
        "T" []).map Prod.fst = base25 ++ statFields25 ∧
    "minutes" ∈ statFields25 ∧
    pyGet (mkRow25 .null (.int 3) (.str " ") .null .null .null .null .null .null .null
        "T" []) "minutes" = .int 0 :=
  ⟨rfl,
   c4_fixed_field_set.1 (.obj [("elements", .arr
       [.obj [("element", .int 3), ("stats", .obj [])]])]) (.obj []) "T"
     [mkRow25 .null (.int 3) (.str " ") .null .null .null .null .null .null .null
       "T" []] rfl _ (by simp),
   by decide,
   c4_fixed_field_set.2.2 .null (.int 3) (.str " ") .null .null .null .null .null
     .null .null "T" [] "minutes" (by decide) rfl⟩

/-! ### Claim C10: falsy identifier resolution -/

/-- C10 counterexample: an entry whose secondary identifier field is the
falsy integer `0` (and whose direct field is absent) is *not* dropped — the
drop test is `player_id is None`, and `0` is not `None` — so the emitted
CanonicalRow carries the falsy entity identifier `0`, contradicting "no
emitted CanonicalRow ever carries a falsy entity identifier". -/
theorem c10_counterexample :
    (flatten_live_to_rows (.obj [("elements", .arr
        [.obj [("element", .int 0), ("stats", .obj [])]])]) (.obj []) "T").map
      (fun rows => rows.map (fun r => pyGet r "player_id")) =
      .ok [[.int 0]].head! ∧
    truthy (.int 0) = false := by
  constructor
  · rfl
  · rfl

/-- C10 amended: identifier resolution uses truthiness, so a falsy direct
identifier field falls through to the secondary field
(`pyOr d s = s` when `d` is falsy); the entry is then dropped precisely
when the resolved value is `None` — a present but falsy non-null secondary
identifier such as `0` is retained, and the emitted row carries it. -/
theorem c10_falsy_fallthrough (d s : JValue)
    (hd : truthy d = false) (hs : jHashable s = true) :
    pyOr d s = s ∧
    (flatten_live_to_rows (.obj [("elements", .arr
        [.obj [("id", d), ("element", s), ("stats", .obj [])]])]) (.obj []) "T").map
      (fun rows => rows.map (fun r => pyGet r "player_id")) =
      .ok (if isNullJ s then [] else [s]) := by
  have hpor : pyOr d s = s := by simp [pyOr, hd]
  refine ⟨hpor, ?_⟩
  have key : flatten_live_to_rows (.obj [("elements", .arr
      [.obj [("id", d), ("element", s), ("stats", .obj [])]])]) (.obj []) "T" =
      andThen
        (if isNullJ (pyOr d s) then Except.ok (none : Option Row)
         else andThen (rowSteps25 [] [] [] .null "T"
            [("id", d), ("element", s), ("stats", .obj [])] (pyOr d s))
           fun r => .ok (some r))
        (fun r? => .ok (match r? with | none => ([] : List Row) | some r => [r])) :=
    rfl
  rw [key, hpor]
  cases s with
  | null => rfl
  | bool b => rfl
  | int n => rfl
  | str st => rfl
  | arr xs => simp [jHashable] at hs
  | obj kvs => simp [jHashable] at hs

/-- C10 witness: the fall-through theorem at the concrete falsy direct
identifier `0` and secondary identifier `0`. -/
theorem c10_falsy_fallthrough_witness :
    pyOr (.int 0) (.int 0) = .int 0 ∧
    (flatten_live_to_rows (.obj [("elements", .arr
        [.obj [("id", .int 0), ("element", .int 0), ("stats", .obj [])]])])
        (.obj []) "T").map
      (fun rows => rows.map (fun r => pyGet r "player_id")) =
      .ok (if isNullJ (.int 0) then [] else [.int 0]) :=
  c10_falsy_fallthrough (.int 0) (.int 0) rfl rfl

/-! ### Claim C3: pair-sequence statistics versus flat mappings -/

/-- The `{identifier, value}` pair-sequence encoding of a statistics
mapping. -/
def encPairs (pairs : List (String × JValue)) : List JValue :=
  pairs.map (fun p => .obj [("identifier", .str p.1), ("value", p.2)])

/-- The flat stat dict the normalization loop produces from an encoded pair
sequence: pairs with an empty (falsy) identifier are skipped, the rest keep
their order. -/
def normFlat (pairs : List (String × JValue)) : List (JValue × JValue) :=
  (pairs.filter (fun p => truthy (.str p.1))).map (fun p => (JValue.str p.1, p.2))

theorem normalizePairsGo_enc (pairs : List (String × JValue)) :
    ∀ s, normalizePairsGo s (encPairs pairs) = .ok (s ++ normFlat pairs) := by
  induction pairs with
  | nil => intro s; simp [encPairs, normFlat, normalizePairsGo]
  | cons p ps ih =>
    intro s
    obtain ⟨k, v⟩ := p
    by_cases hk : k = ""
    · subst hk
      simpa [encPairs, normFlat, normalizePairsGo, pyGet, lookupLastStr, pyOr,
        truthy] using ih s
    · have ihk := ih (s ++ [(JValue.str k, v)])
      simp only [encPairs] at ihk
      simp [encPairs, normFlat, normalizePairsGo, pyGet, lookupLastStr, pyOr,
        truthy, hk, jHashable, ihk, List.append_assoc]

theorem lookupLastJ_normFlat (fld : String) (hf : fld ≠ "") :
    ∀ pairs : List (String × JValue),
      lookupLastJ (normFlat pairs) (.str fld) =
        lookupLastJ (pairs.map (fun p => (JValue.str p.1, p.2))) (.str fld) := by
  intro pairs
  induction pairs with
  | nil => rfl
  | cons p ps ih =>
    obtain ⟨k, v⟩ := p
    by_cases hk : k = ""
    · subst hk
      simp only [normFlat, List.filter_cons, List.map_cons] at *
      rw [if_neg (by simp [truthy])]
      rw [ih]
      cases h : lookupLastJ (ps.map (fun p => (JValue.str p.1, p.2))) (.str fld) with
      | some r => simp [lookupLastJ, h]
      | none => simp [lookupLastJ, h, jeqScalar, Ne.symm hf]
    · simp only [normFlat, List.filter_cons, List.map_cons] at *
      rw [if_pos (by simp [truthy, hk])]
      simp only [List.map_cons, lookupLastJ, ih]

theorem lookupLastJ_normFlat_absent (fld : String) :
    ∀ pairs : List (String × JValue), (∀ p ∈ pairs, p.1 ≠ fld) →
      lookupLastJ (normFlat pairs) (.str fld) = none := by
  intro pairs
  induction pairs with
  | nil => intro _; rfl
  | cons p ps ih =>
    intro h
    obtain ⟨k, v⟩ := p
    have hk : k ≠ fld := h (k, v) (List.mem_cons_self _ _)
    have hrest := ih (fun q hq => h q (List.mem_cons_of_mem _ hq))
    by_cases hke : k = ""
    · subst hke
      simp only [normFlat, List.filter_cons] at *
      rw [if_neg (by simp [truthy])]
      exact hrest
    · simp only [normFlat, List.filter_cons] at *
      rw [if_pos (by simp [truthy, hke])]
      simp [lookupLastJ, hrest, jeqScalar, hk]

theorem pyGet_snoc_ne (xs : List (String × JValue)) (k : String) (v : JValue)
    (k2 : String) (h : k2 ≠ k) :
    pyGet (xs ++ [(k, v)]) k2 = pyGet xs k2 := by
  simp [pyGet, lookupLastStr_snoc_ne xs k v k2 h]

theorem hasKeyStr_snoc_ne (xs : List (String × JValue)) (k : String) (v : JValue)
    (k2 : String) (h : k2 ≠ k) :
    hasKeyStr (xs ++ [(k, v)]) k2 = hasKeyStr xs k2 := by
  simp [hasKeyStr, lookupLastStr_snoc_ne xs k v k2 h]

theorem pyGet_snoc_self (xs : List (String × JValue)) (k : String) (v : JValue) :
    pyGet (xs ++ [(k, v)]) k = v := by
  simp [pyGet, lookupLastStr_snoc_self]

theorem pyGetD_snoc_self (xs : List (String × JValue)) (k : String) (v d : JValue) :
    pyGetD (xs ++ [(k, v)]) k d = v := by
  simp [pyGetD, lookupLastStr_snoc_self]

/-- When the entry's `"stats"` value is falsy, both `or` fallbacks fire and
the stat dict comes from the top-level comprehension
`{k: ele.get(k) for k in GW_STAT_FIELDS}`. -/
theorem statsGwData_falsy_ok (base : List (String × JValue)) (Y : JValue)
    (hY : truthy Y = false) :
    statsGwData (base ++ [("stats", Y)]) =
      .ok ((GW_STAT_FIELDS.map fun k => (k, pyGet base k)).map
        fun kv => (JValue.str kv.1, kv.2)) := by
  have hne : ∀ k2 ∈ GW_STAT_FIELDS, k2 ≠ "stats" := by decide
  have hc : (GW_STAT_FIELDS.map fun k => (k, pyGet (base ++ [("stats", Y)]) k)) =
      GW_STAT_FIELDS.map fun k => (k, pyGet base k) :=
    List.map_congr_left fun k hk => by rw [pyGet_snoc_ne _ _ _ _ (hne k hk)]
  simp only [statsGwData, pyGet_snoc_self, pyGetD_snoc_self, pyOr, hY,
    Bool.false_eq_true, if_false, hc]

theorem statsGwData_enc_cons (base : List (String × JValue)) (p : String × JValue)
    (ps : List (String × JValue)) :
    statsGwData (base ++ [("stats", .arr (encPairs (p :: ps)))]) =
      .ok (normFlat (p :: ps)) ∧
    statsGwData (base ++ [("stats", .obj (p :: ps))]) =
      .ok ((p :: ps).map fun kv => (JValue.str kv.1, kv.2)) := by
  constructor
  · simp only [statsGwData, pyGet_snoc_self, encPairs, List.map_cons, pyOr, truthy]
    simpa [encPairs, normalizePairs] using normalizePairsGo_enc (p :: ps) []
  · simp [statsGwData, pyGet_snoc_self, pyOr, truthy]

/-- The two stat shapes resolve to stat dicts that agree on the lookup of
every non-empty field name. -/
theorem statsGwData_enc (base pairs : List (String × JValue)) :
    ∃ s1 s2,
      statsGwData (base ++ [("stats", .arr (encPairs pairs))]) = .ok s1 ∧
      statsGwData (base ++ [("stats", .obj pairs)]) = .ok s2 ∧
      ∀ fld : String, fld ≠ "" → statLookup s1 fld = statLookup s2 fld := by
  cases pairs with
  | nil =>
    exact ⟨_, _, statsGwData_falsy_ok base (.arr (encPairs [])) rfl,
      statsGwData_falsy_ok base (.obj []) rfl, fun _ _ => rfl⟩
  | cons p ps =>
    obtain ⟨h1, h2⟩ := statsGwData_enc_cons base p ps
    refine ⟨_, _, h1, h2, fun fld hf => ?_⟩
    simp [statLookup, lookupLastJ_normFlat fld hf (p :: ps)]

theorem mkRowGwData_congr (pid name tid team posid pos cost vs tps sel rowGw : JValue)
    (now : String) (s1 s2 : List (JValue × JValue)) (base : List (String × JValue))
    (X Y : JValue)
    (hstat : ∀ fld : String, fld ≠ "" → statLookup s1 fld = statLookup s2 fld) :
    mkRowGwData pid name tid team posid pos cost vs tps sel rowGw now s1
        (base ++ [("stats", X)]) =
      mkRowGwData pid name tid team posid pos cost vs tps sel rowGw now s2
        (base ++ [("stats", Y)]) := by
  have hne : ∀ k2 ∈ GW_STAT_FIELDS, k2 ≠ "" := by decide
  have hnt : ∀ t2 ∈ optTopFields, t2 ≠ "stats" := by decide
  have hB : GW_STAT_FIELDS.map (fun fld => (fld, statLookup s1 fld)) =
      GW_STAT_FIELDS.map (fun fld => (fld, statLookup s2 fld)) :=
    List.map_congr_left fun fld hf => by rw [hstat fld (hne fld hf)]
  have hfil : optTopFields.filter (fun t2 => hasKeyStr (base ++ [("stats", X)]) t2) =
      optTopFields.filter (fun t2 => hasKeyStr (base ++ [("stats", Y)]) t2) :=
    List.filter_congr fun t2 ht2 => by
      rw [hasKeyStr_snoc_ne _ _ _ _ (hnt t2 ht2), hasKeyStr_snoc_ne _ _ _ _ (hnt t2 ht2)]
  have hC : (optTopFields.filter (fun t2 => hasKeyStr (base ++ [("stats", Y)]) t2)).map
        (fun t2 => (t2, pyGet (base ++ [("stats", X)]) t2)) =
      (optTopFields.filter (fun t2 => hasKeyStr (base ++ [("stats", Y)]) t2)).map
        (fun t2 => (t2, pyGet (base ++ [("stats", Y)]) t2)) :=
    List.map_congr_left fun t2 ht2 => by
      have hmem : t2 ∈ optTopFields := List.mem_of_mem_filter ht2
      rw [pyGet_snoc_ne _ _ _ _ (hnt t2 hmem), pyGet_snoc_ne _ _ _ _ (hnt t2 hmem)]
  rw [mkRowGwData, mkRowGwData, hB, hfil, hC]

theorem rowStepsGwData_congr (pm tm em : IdMap) (eventV gwV : JValue) (now : String)
    (base pairs : List (String × JValue)) (pid : JValue) :
    rowStepsGwData pm tm em eventV gwV now
        (base ++ [("stats", .arr (encPairs pairs))]) pid =
      rowStepsGwData pm tm em eventV gwV now
        (base ++ [("stats", .obj pairs)]) pid := by
  obtain ⟨s1, s2, h1, h2, hl⟩ := statsGwData_enc base pairs
  rw [rowStepsGwData, rowStepsGwData]
  cases hm : idMapGetD pm pid with
  | error e => simp [andThen, hm]
  | ok meta =>
  simp only [hm, andThen_ok_left]
  cases hg : groupField tm (pyGet meta "team") "name" with
  | error e => simp [andThen, hg]
  | ok team =>
  simp only [hg, andThen_ok_left]
  cases hp : groupField em (pyGet meta "element_type") "singular_name_short" with
  | error e => simp [andThen, hp]
  | ok pos =>
  simp only [hp, andThen_ok_left]
  rw [h1, h2]
  simp only [andThen_ok_left]
  cases hn : resolveNameGwData meta with
  | error e => simp [andThen, hn]
  | ok name =>
  simp only [hn, andThen_ok_left]
  rw [mkRowGwData_congr pid name (pyGet meta "team") team (pyGet meta "element_type")
    pos (pyGet meta "now_cost") (pyGet meta "value_season") (pyGet meta "total_points")
    (pyGet meta "selected_by_percent") (pyOr eventV gwV) now s1 s2 base _ _ hl]

theorem flattenOneGwData_congr (pm tm em : IdMap) (eventV gwV : JValue)
    (now : String) (base pairs : List (String × JValue)) :
    flattenOneGwData pm tm em eventV gwV now
        (.obj (base ++ [("stats", .arr (encPairs pairs))])) =
      flattenOneGwData pm tm em eventV gwV now
        (.obj (base ++ [("stats", .obj pairs)])) := by
  rw [flattenOneGwData, flattenOneGwData]
  simp only [asObjA, andThen_ok_left]
  rw [pyGet_snoc_ne _ _ _ "id" (by decide), pyGet_snoc_ne _ _ _ "id" (by decide),
    pyGet_snoc_ne _ _ _ "element" (by decide), pyGet_snoc_ne _ _ _ "element" (by decide)]
  by_cases hn : isNullJ (pyOr (pyGet base "id") (pyGet base "element")) = true
  · rw [if_pos hn, if_pos hn]
  · rw [if_neg hn, if_neg hn, rowStepsGwData_congr]

/-- The full reconciler agrees on the two stat shapes of a single-entry
payload, whatever the rest of the entry, the reference metadata, and the
timestamp are. -/
theorem gw_live_congr (B : JValue) (t : String)
    (base pairs : List (String × JValue)) :
    gw_live_to_rows (.obj [("elements",
        .arr [.obj (base ++ [("stats", .arr (encPairs pairs))])])]) B t =
      gw_live_to_rows (.obj [("elements",
        .arr [.obj (base ++ [("stats", .obj pairs)])])]) B t := by
  rw [gw_live_to_rows, gw_live_to_rows]
  cases hb1 : pyGetDE B "elements" (.arr []) with
  | error e => simp [andThen, hb1]
  | ok ev =>
  simp only [hb1, andThen_ok_left]
  cases hb2 : buildIdMap ev with
  | error e => simp [andThen, hb2]
  | ok pm =>
  simp only [hb2, andThen_ok_left]
  cases hb3 : pyGetDE B "teams" (.arr []) with
  | error e => simp [andThen, hb3]
  | ok tv =>
  simp only [hb3, andThen_ok_left]
  cases hb4 : buildIdMap tv with
  | error e => simp [andThen, hb4]
  | ok tm =>
  simp only [hb4, andThen_ok_left]
  cases hb5 : pyGetDE B "element_types" (.arr []) with
  | error e => simp [andThen, hb5]
  | ok etv =>
  simp only [hb5, andThen_ok_left]
  cases hb6 : buildIdMap etv with
  | error e => simp [andThen, hb6]
  | ok em =>
  simp only [hb6, andThen_ok_left]
  simp [pyGetDE, asObjA, pyGetD, lookupLastStr, asListT, pyOr, truthy,
    flattenElemsGwData, andThen_ok_left, flattenOneGwData_congr]

/-- A single-entry payload whose statistics arrive as an
`{identifier, value}` pair sequence. -/
def cPayloadC3 : JValue :=
  .obj [("elements", .arr [.obj [("id", .int 1),
    ("stats", .arr [.obj [("identifier", .str "minutes"), ("value", .int 90)]])]])]

/-- The same payload with the statistics as a native flat mapping. -/
def cPayloadC3flat : JValue :=
  .obj [("elements", .arr [.obj [("id", .int 1),
    ("stats", .obj [("minutes", .int 90)])]])]

/-- C3 counterexample: the claim covers both reconcilers, but
`flatten_live_to_rows` (`gameweek25-26.py`) does not normalize pair
sequences at all — `stats.get(fld, 0)` on a list raises `AttributeError` —
while the same statistics as a flat mapping reconcile fine, so the two
shapes do not yield the same CanonicalRow there. -/
theorem c3_counterexample :
    flatten_live_to_rows cPayloadC3 cBootAB "T" = .error .attributeError ∧
    flatten_live_to_rows cPayloadC3flat cBootAB "T" =
      .ok [mkRow25 .null (.int 1) (.str "A") .null .null .null .null .null .null .null
        "T" [("minutes", .int 90)]] :=
  ⟨rfl, rfl⟩

/-- C3 amended: for `gw_live_to_rows` (`gameweek_data.py`) the claim holds —
supplying an entry's statistics as an `{identifier|name, value}` pair
sequence yields exactly the same CanonicalRow as the corresponding flat
mapping, for any entry, metadata and timestamp; the pair sequence is
normalized into a flat dict (empty identifiers skipped) and any stat field
absent after normalization defaults to zero.  `flatten_live_to_rows`
(`gameweek25-26.py`), however, raises `AttributeError` on a pair sequence. -/
theorem c3_pair_sequence_stats :
    (∀ (B : JValue) (t : String) (base pairs : List (String × JValue)),
      gw_live_to_rows (.obj [("elements",
          .arr [.obj (base ++ [("stats", .arr (encPairs pairs))])])]) B t =
        gw_live_to_rows (.obj [("elements",
          .arr [.obj (base ++ [("stats", .obj pairs)])])]) B t) ∧
    (∀ pairs : List (String × JValue),
      normalizePairs (encPairs pairs) = .ok (normFlat pairs)) ∧
    (∀ (pairs : List (String × JValue)) (fld : String),
      (∀ p ∈ pairs, p.1 ≠ fld) → statLookup (normFlat pairs) fld = .int 0) ∧
    flatten_live_to_rows cPayloadC3 cBootAB "T" = .error .attributeError := by
  refine ⟨gw_live_congr, ?_, ?_, rfl⟩
  · intro pairs
    simpa [normalizePairs] using normalizePairsGo_enc pairs []
  · intro pairs fld h
    simp [statLookup, lookupLastJ_normFlat_absent fld pairs h]

/-- C3 witness: the equivalence applied to the concrete single-stat pair
sequence `[{identifier: "minutes", value: 90}]`, and the zero default at
the concrete absent field `"goals_scored"`. -/
theorem c3_pair_sequence_stats_witness :
    gw_live_to_rows (.obj [("elements", .arr [.obj ([("id", JValue.int 1)] ++
        [("stats", .arr (encPairs [("minutes", .int 90)]))])])]) cBootAB "T" =
      gw_live_to_rows (.obj [("elements", .arr [.obj ([("id", JValue.int 1)] ++
        [("stats", .obj [("minutes", .int 90)])])])]) cBootAB "T" ∧
    (∀ p ∈ ([("minutes", JValue.int 90)] : List (String × JValue)),
      p.1 ≠ "goals_scored") ∧
    statLookup (normFlat [("minutes", JValue.int 90)]) "goals_scored" = .int 0 :=
  ⟨c3_pair_sequence_stats.1 cBootAB "T" [("id", .int 1)] [("minutes", .int 90)],
   by decide,
   c3_pair_sequence_stats.2.2.1 [("minutes", .int 90)] "goals_scored" (by decide)⟩

end FPL
